import Mathlib

/-!
Shallow embedding of `src/infer_play_diffusion.py` (PlayDiffusion inference
script).  The script orchestrates three external collaborators — an ASR
model, a diffusion inpainter and a TTS synthesizer — behind a CLI.

The collaborators are modelled as abstract pure functions bundled in a
`Collaborators` record.  Every observable action of the script (constructing
the `PlayDiffusion` engine, loading the ASR model, calling a collaborator,
writing a WAV file, raising a `ValueError`) is recorded as an `Event` in a
trace, so ordering and call-count properties can be stated directly.

Timestamps and floating sampling parameters are modelled as rationals
(they are only carried, never computed with); audio sample buffers as
`List Int`.
-/

/-- A word entry of the raw ASR output `output[0].timestamp['word']`:
fields `word`, `start`, `end`. -/
structure ASRWord where
  word : String
  start : Rat
  end_ : Rat
deriving DecidableEq, Repr

/-- The raw ASR output for one audio file: `output[0].text` and
`output[0].timestamp['word']`. -/
structure ASRResult where
  text : String
  timestamp_word : List ASRWord
deriving DecidableEq, Repr

/-- A processed word timing produced by `run_asr` (word text with edge
punctuation stripped, start and end seconds). -/
structure WordTiming where
  word : String
  start : Rat
  end_ : Rat
deriving DecidableEq, Repr

/-- The request record passed to `self.inpainter.inpaint` (source lines
96–107). -/
structure InpaintInput where
  input_text : String
  output_text : String
  input_word_times : List WordTiming
  audio : String
  num_steps : Int
  init_temp : Rat
  init_diversity : Rat
  guidance : Rat
  rescale : Rat
  topk : Int
deriving DecidableEq, Repr

/-- The request record passed to `self.inpainter.tts` (source lines
143–146). -/
structure TTSInput where
  output_text : String
  voice : String
deriving DecidableEq, Repr

/-- The external collaborators, as deterministic black boxes: the ASR model
(`transcribe`), the diffusion inpainter and the TTS synthesizer.  The two
waveform producers return a `(sample_rate, samples)` pair, matching
`output_audio[0]` / `output_audio[1]` in the source. -/
structure Collaborators where
  asr : String → ASRResult
  inpaint : InpaintInput → Nat × List Int
  tts : TTSInput → Nat × List Int

/-- Observable actions of the script, in execution order. -/
inductive Event where
  | constructPlayDiffusion : Event
  | loadASRModel (path : String) : Event
  | asrTranscribe (audio_path : String) : Event
  | inpaintCall (req : InpaintInput) : Event
  | ttsCall (req : TTSInput) : Event
  | sfWrite (path : String) (data : List Int) (samplerate : Nat) (subtype : String) : Event
  | raiseValueError (msg : String) : Event
deriving DecidableEq, Repr

/-- Python `s.strip(chars)`: drop from both ends every character that occurs
in `chars`. -/
def pyStrip (chars : List Char) (s : String) : String :=
  String.mk (((s.data.dropWhile (fun c => chars.contains c)).reverse.dropWhile
    (fun c => chars.contains c)).reverse)

/-- The character set of the `.strip(",.?!")` call on source line 50. -/
def stripChars : List Char := [',', '.', '?', '!']

/-- Python `os.path.basename` for POSIX paths: the part after the last
slash. -/
def basename (p : String) : String :=
  (p.splitOn "/").getLastD p

/-- Python truthiness test `not x` for an `Optional[str]`: true when the
value is absent or the empty string. -/
def pyFalsy : Option String → Bool
  | none => true
  | some s => s.isEmpty

/-- `PlayDiffusionInference.run_asr` (source lines 36–57): call the ASR
model, post-process the word timings by stripping `,.?!` from both edges of
each word while passing `start`/`end` through, and return the transcript
text twice together with the timings. -/
def run_asr (C : Collaborators) (audio_path : String) :
    List Event × (String × String × List WordTiming) :=
  let output := C.asr audio_path
  let word_times := output.timestamp_word.map
    (fun w => WordTiming.mk (pyStrip stripChars w.word) w.start w.end_)
  ([Event.asrTranscribe audio_path], (output.text, output.text, word_times))

/-- The `InpaintInput` literal built inside `inpaint_audio` (source lines
96–107): `input_text` and `input_word_times` come from the fresh `run_asr`
call, `output_text` and the sampling parameters from the arguments. -/
def inpaint_request (C : Collaborators) (audio_path output_text : String)
    (num_steps : Int) (init_temp init_diversity guidance rescale : Rat)
    (topk : Int) : InpaintInput :=
  InpaintInput.mk (run_asr C audio_path).2.1 output_text
    (run_asr C audio_path).2.2.2 audio_path num_steps init_temp
    init_diversity guidance rescale topk

/-- `PlayDiffusionInference.inpaint_audio` (source lines 59–119): run ASR,
call the inpainter with the built request, resolve the output path
(defaulting to `output_inpaint_<basename(audio_path)>`), write the waveform
as PCM_16, and return the output path. -/
def inpaint_audio (C : Collaborators) (audio_path output_text : String)
    (num_steps : Int) (init_temp init_diversity guidance rescale : Rat)
    (topk : Int) (output_path : Option String) : List Event × String :=
  let asr := run_asr C audio_path
  let req := InpaintInput.mk asr.2.1 output_text asr.2.2.2 audio_path
    num_steps init_temp init_diversity guidance rescale topk
  let output_audio := C.inpaint req
  let resolved := match output_path with
    | none => "output_inpaint_" ++ basename audio_path
    | some p => p
  (asr.1 ++ [Event.inpaintCall req,
    Event.sfWrite resolved output_audio.2 output_audio.1 "PCM_16"], resolved)

/-- `PlayDiffusionInference.text_to_speech` (source lines 121–155): call the
TTS synthesizer, resolve the output path (defaulting to
`output_tts_<basename(voice_audio_path)>`), write the waveform as PCM_16,
and return the output path. -/
def text_to_speech (C : Collaborators) (text voice_audio_path : String)
    (output_path : Option String) : List Event × String :=
  let output_audio := C.tts (TTSInput.mk text voice_audio_path)
  let resolved := match output_path with
    | none => "output_tts_" ++ basename voice_audio_path
    | some p => p
  ([Event.ttsCall (TTSInput.mk text voice_audio_path),
    Event.sfWrite resolved output_audio.2 output_audio.1 "PCM_16"], resolved)

/-- `PlayDiffusionInference.run_complete_pipeline` (source lines 157–188):
forwards every argument to `inpaint_audio` and returns its result. -/
def run_complete_pipeline (C : Collaborators) (audio_path target_text : String)
    (output_path : Option String) (num_steps : Int)
    (init_temp init_diversity guidance rescale : Rat) (topk : Int) :
    List Event × String :=
  inpaint_audio C audio_path target_text num_steps init_temp init_diversity
    guidance rescale topk output_path

/-- Parsed arguments after `parser.parse_args()`: `audio` is present
(argparse enforced it), defaults already substituted. -/
structure Args where
  mode : String
  audio : String
  text : Option String
  voice : Option String
  output : Option String
  asr_model : String
  num_steps : Int
  init_temp : Rat
  init_diversity : Rat
  guidance : Rat
  rescale : Rat
  topk : Int
deriving DecidableEq, Repr

/-- Command-line flags as supplied (before argparse applies defaults or
checks requiredness): every flag may be absent. -/
structure RawArgs where
  mode : Option String
  audio : Option String
  text : Option String
  voice : Option String
  output : Option String
  asr_model : Option String
  num_steps : Option Int
  init_temp : Option Rat
  init_diversity : Option Rat
  guidance : Option Rat
  rescale : Option Rat
  topk : Option Int
deriving DecidableEq, Repr

/-- Default ASR model path (source lines 199–200). -/
def default_asr_model_path : String :=
  "modeldata/audio/asr/parakeet/parakeet-tdt-0.6b-v2.nemo"

/-- The `choices` list of `--mode` (source line 193). -/
def modeChoices : List String := ["inpaint", "tts", "asr"]

/-- The argparse layer of `main` (source lines 192–210): `--audio` is
required, `--mode` is restricted to its choices and defaults to `inpaint`,
the sampling flags default to 30, 1.0, 1.0, 0.5, 0.7, 25, and
`--text`/`--voice`/`--output` stay optional. -/
def parse_args (r : RawArgs) : Except String Args :=
  match r.audio with
  | none => Except.error "the following arguments are required: --audio"
  | some a =>
    let mode := r.mode.getD "inpaint"
    if modeChoices.contains mode then
      Except.ok (Args.mk mode a r.text r.voice r.output
        (r.asr_model.getD default_asr_model_path)
        (r.num_steps.getD 30) (r.init_temp.getD 1) (r.init_diversity.getD 1)
        (r.guidance.getD (1/2)) (r.rescale.getD (7/10)) (r.topk.getD 25))
    else Except.error "argument --mode: invalid choice"

/-- Message of the `ValueError` raised on source line 224. -/
def inpaintTextMsg : String := "inpaint模式需要指定 --text 参数"

/-- Message of the `ValueError` raised on source line 242. -/
def ttsTextMsg : String := "tts模式需要指定 --text 参数"

/-- Message of the `ValueError` raised on source line 244. -/
def ttsVoiceMsg : String := "tts模式需要指定 --voice 参数"

/-- Outcome of a `main` run: normal completion (with the printed output
path, when one is produced) or an uncaught `ValueError`. -/
inductive RunResult where
  | ok (out : Option String) : RunResult
  | error (msg : String) : RunResult
deriving DecidableEq, Repr

/-- The body of `main` after argument parsing (source lines 212–251):
construct `PlayDiffusionInference` (which builds `PlayDiffusion()` and loads
the ASR model) first, then dispatch on the mode, checking the mode-specific
required arguments by truthiness before any collaborator call. -/
def main_dispatch (C : Collaborators) (args : Args) : List Event × RunResult :=
  let ctor : List Event :=
    [Event.constructPlayDiffusion, Event.loadASRModel args.asr_model]
  if args.mode = "asr" then
    let r := run_asr C args.audio
    (ctor ++ r.1, RunResult.ok none)
  else if args.mode = "inpaint" then
    if pyFalsy args.text then
      (ctor ++ [Event.raiseValueError inpaintTextMsg],
        RunResult.error inpaintTextMsg)
    else
      let r := run_complete_pipeline C args.audio (args.text.getD "")
        args.output args.num_steps args.init_temp args.init_diversity
        args.guidance args.rescale args.topk
      (ctor ++ r.1, RunResult.ok (some r.2))
  else if args.mode = "tts" then
    if pyFalsy args.text then
      (ctor ++ [Event.raiseValueError ttsTextMsg], RunResult.error ttsTextMsg)
    else if pyFalsy args.voice then
      (ctor ++ [Event.raiseValueError ttsVoiceMsg], RunResult.error ttsVoiceMsg)
    else
      let r := text_to_speech C (args.text.getD "") (args.voice.getD "")
        args.output
      (ctor ++ r.1, RunResult.ok (some r.2))
  else (ctor, RunResult.ok none)

/-- A full CLI invocation: parse, then dispatch. -/
def run_cli (C : Collaborators) (r : RawArgs) :
    Except String (List Event × RunResult) :=
  (parse_args r).map (fun args => main_dispatch C args)

/-- Whether an event is an ASR transcription call. -/
def Event.isTranscribe : Event → Bool
  | Event.asrTranscribe _ => true
  | _ => false

/-- Whether an event is a diffusion-inpainter call. -/
def Event.isInpaintCall : Event → Bool
  | Event.inpaintCall _ => true
  | _ => false

/-- Whether an event is a TTS call. -/
def Event.isTTSCall : Event → Bool
  | Event.ttsCall _ => true
  | _ => false

/-- Whether an event is a file write. -/
def Event.isWrite : Event → Bool
  | Event.sfWrite _ _ _ _ => true
  | _ => false

/-- Whether an event is a raised `ValueError`. -/
def Event.isRaise : Event → Bool
  | Event.raiseValueError _ => true
  | _ => false

/-- Whether an event is an ASR model load. -/
def Event.isLoadASR : Event → Bool
  | Event.loadASRModel _ => true
  | _ => false

/-- The audio paths of the ASR transcription calls in a trace. -/
def transcribesOf (tr : List Event) : List String :=
  tr.filterMap (fun e => match e with
    | Event.asrTranscribe a => some a
    | _ => none)

/-- The diffusion-inpainter requests delivered in a trace. -/
def requestsOf (tr : List Event) : List InpaintInput :=
  tr.filterMap (fun e => match e with
    | Event.inpaintCall r => some r
    | _ => none)

/-- The diffusion-inpainter requests delivered in a full CLI run (none when
parsing failed). -/
def requestsOfRun : Except String (List Event × RunResult) → List InpaintInput
  | Except.error _ => []
  | Except.ok tr => requestsOf tr.1

/-- The file writes of a trace, as (path, data, samplerate, subtype). -/
def writesOf (tr : List Event) : List (String × List Int × Nat × String) :=
  tr.filterMap (fun e => match e with
    | Event.sfWrite p d sr st => some (p, d, sr, st)
    | _ => none)

/-- The paths of the file writes of a trace. -/
def writePathsOf (tr : List Event) : List String :=
  tr.filterMap (fun e => match e with
    | Event.sfWrite p _ _ _ => some p
    | _ => none)

/-- The events of a trace that touch a collaborator (transcription,
inpainting, synthesis) or write a file. -/
def collaboratorEventsOf (tr : List Event) : List Event :=
  tr.filter (fun e =>
    Event.isTranscribe e || Event.isInpaintCall e || Event.isTTSCall e ||
      Event.isWrite e)

/-- Replace the `audio` argument, keeping every other flag. -/
def setAudio (args : Args) (a : String) : Args :=
  Args.mk args.mode a args.text args.voice args.output args.asr_model
    args.num_steps args.init_temp args.init_diversity args.guidance
    args.rescale args.topk

/-- Replace the `text` argument, keeping every other flag. -/
def setText (args : Args) (t : Option String) : Args :=
  Args.mk args.mode args.audio t args.voice args.output args.asr_model
    args.num_steps args.init_temp args.init_diversity args.guidance
    args.rescale args.topk

/-- Replace the `voice` argument, keeping every other flag. -/
def setVoice (args : Args) (v : Option String) : Args :=
  Args.mk args.mode args.audio args.text v args.output args.asr_model
    args.num_steps args.init_temp args.init_diversity args.guidance
    args.rescale args.topk

/-- A concrete ASR answer used in witnesses: transcript and two raw words
with edge punctuation, the first one being the spec example. -/
def asrResultEx : ASRResult :=
  ASRResult.mk "hello world"
    [ASRWord.mk "hello," 1 (3/2), ASRWord.mk "world." 2 3]

/-- Concrete collaborators used in witnesses and counterexamples. -/
def Cex : Collaborators :=
  Collaborators.mk (fun _ => asrResultEx)
    (fun _ => (16000, [0, 5, -5])) (fun _ => (22050, [7]))

/-- Concrete parsed arguments: inpaint mode with `--text` omitted. -/
def argsInpaintNoText : Args :=
  Args.mk "inpaint" "a/b.wav" none none none default_asr_model_path
    30 1 1 (1/2) (7/10) 25

/-- Concrete parsed arguments: asr mode with `--output` omitted. -/
def argsAsrNoOutput : Args :=
  Args.mk "asr" "a/b.wav" none none none default_asr_model_path
    30 1 1 (1/2) (7/10) 25

/-- Concrete parsed arguments: a valid inpaint invocation with `--output`
omitted. -/
def argsInpaintEx : Args :=
  Args.mk "inpaint" "a/b.wav" (some "new words") none none
    default_asr_model_path 30 1 1 (1/2) (7/10) 25

/-- Concrete parsed arguments: a valid inpaint invocation with an explicit
`--output`. -/
def argsInpaintOutEx : Args :=
  Args.mk "inpaint" "a/b.wav" (some "new words") none (some "custom.wav")
    default_asr_model_path 30 1 1 (1/2) (7/10) 25

/-- Concrete parsed arguments: a valid tts invocation with `--output`
omitted. -/
def argsTtsEx : Args :=
  Args.mk "tts" "a/b.wav" (some "hi") (some "v/c.wav") none
    default_asr_model_path 30 1 1 (1/2) (7/10) 25

/-- Concrete parsed arguments: a valid tts invocation with an explicit
`--output`. -/
def argsTtsOutEx : Args :=
  Args.mk "tts" "a/b.wav" (some "hi") (some "v/c.wav") (some "t.wav")
    default_asr_model_path 30 1 1 (1/2) (7/10) 25

/-- Concrete raw CLI flags: inpaint mode with every sampling flag omitted. -/
def rawInpaintEx : RawArgs :=
  RawArgs.mk (some "inpaint") (some "a/b.wav") (some "new words") none none
    none none none none none none none

/-- Concrete raw CLI flags: inpaint mode omitting only `--num_steps` and
`--guidance` while supplying non-default values for the other sampling
flags. -/
def rawMixedEx : RawArgs :=
  RawArgs.mk (some "inpaint") (some "a/b.wav") (some "new words") none none
    none none (some 2) (some 3) none (some (1/4)) (some 50)

/-- C1: every inpaint invocation transcribes exactly once, the transcription
happens before the diffusion call, exactly one request is delivered to the
diffusion collaborator, and that request's source text is the freshly
computed transcript of the input audio — no caller-supplied transcript can
take its place. -/
theorem C1_inpaint_transcribes_once_before_diffusion (C : Collaborators)
    (a t : String) (ns : Int) (it idv g r : Rat) (k : Int)
    (op : Option String) :
    transcribesOf (inpaint_audio C a t ns it idv g r k op).1 = [a] ∧
    transcribesOf ((inpaint_audio C a t ns it idv g r k op).1.takeWhile
      (fun e => !Event.isInpaintCall e)) = [a] ∧
    requestsOf (inpaint_audio C a t ns it idv g r k op).1 =
      [inpaint_request C a t ns it idv g r k] ∧
    (inpaint_request C a t ns it idv g r k).input_text = (C.asr a).text :=
  ⟨rfl, rfl, rfl, rfl⟩

/-- C3: each produced WordTiming strips the characters `,.?!` from both
edges of the raw ASR word while the start and end fields pass through
unchanged. -/
theorem C3_word_timing_strips_edges (C : Collaborators) (a : String)
    (i : Nat) (h : i < (C.asr a).timestamp_word.length) :
    ((run_asr C a).2.2.2)[i]? =
      some (WordTiming.mk
        (pyStrip stripChars ((C.asr a).timestamp_word)[i].word)
        (((C.asr a).timestamp_word)[i].start)
        (((C.asr a).timestamp_word)[i].end_)) := by
  have hmap : (run_asr C a).2.2.2 = (C.asr a).timestamp_word.map
      (fun w => WordTiming.mk (pyStrip stripChars w.word) w.start w.end_) :=
    rfl
  rw [hmap, List.getElem?_map, List.getElem?_eq_getElem h]
  rfl

/-- C3 witness: the spec example — raw token "hello," with start 1.0 and
end 1.5 yields WordTiming "hello" with start 1.0 and end 1.5. -/
theorem C3_word_timing_strips_edges_witness :
    0 < (Cex.asr "in.wav").timestamp_word.length ∧
    ((run_asr Cex "in.wav").2.2.2)[0]? =
      some (WordTiming.mk "hello" 1 (3/2)) :=
  ⟨by decide,
   (C3_word_timing_strips_edges Cex "in.wav" 0 (by decide)).trans rfl⟩

/-- C6: `run_complete_pipeline` returns the same result and performs the
same trace of collaborator calls and file writes as `inpaint_audio` with
the same arguments. -/
theorem C6_pipeline_equals_inpaint (C : Collaborators) (a t : String)
    (op : Option String) (ns : Int) (it idv g r : Rat) (k : Int) :
    run_complete_pipeline C a t op ns it idv g r k =
      inpaint_audio C a t ns it idv g r k op :=
  rfl

/-- C7: every inpaint and every tts invocation performs exactly one file
write, at the resolved output path, whose data is the collaborator's
returned sample buffer, whose sample rate is the collaborator's returned
sample rate, and whose encoding subtype is PCM_16. -/
theorem C7_write_uses_returned_rate_pcm16 (C : Collaborators)
    (a t : String) (ns : Int) (it idv g r : Rat) (k : Int)
    (op : Option String) (text voice : String) (op2 : Option String) :
    writesOf (inpaint_audio C a t ns it idv g r k op).1 =
      [((inpaint_audio C a t ns it idv g r k op).2,
        (C.inpaint (inpaint_request C a t ns it idv g r k)).2,
        (C.inpaint (inpaint_request C a t ns it idv g r k)).1, "PCM_16")] ∧
    writesOf (text_to_speech C text voice op2).1 =
      [((text_to_speech C text voice op2).2,
        (C.tts (TTSInput.mk text voice)).2,
        (C.tts (TTSInput.mk text voice)).1, "PCM_16")] :=
  ⟨rfl, rfl⟩

/-- C9: `run_asr` returns the transcript text as both its first and second
components, and `inpaint_audio` delivers exactly one request whose
`input_text` is the first component. -/
theorem C9_transcript_duplicated_first_used (C : Collaborators)
    (a t : String) (ns : Int) (it idv g r : Rat) (k : Int)
    (op : Option String) :
    (run_asr C a).2.1 = (run_asr C a).2.2.1 ∧
    (inpaint_request C a t ns it idv g r k).input_text = (run_asr C a).2.1 ∧
    requestsOf (inpaint_audio C a t ns it idv g r k op).1 =
      [inpaint_request C a t ns it idv g r k] :=
  ⟨rfl, rfl, rfl⟩

/-- C2 counterexample: invoking the CLI in inpaint mode with `--text`
omitted does raise the missing-argument error, but an ASR model load event
occurs strictly before the error is raised — the orchestrator (and with it
both collaborators) is constructed before validation, contradicting the
claim that no model load happens before the error. -/
theorem C2_counterexample :
    (main_dispatch Cex argsInpaintNoText).2 = RunResult.error inpaintTextMsg ∧
    ((main_dispatch Cex argsInpaintNoText).1.takeWhile
      (fun e => !Event.isRaise e)).countP Event.isLoadASR = 1 := by
  decide

/-- C2 amended: when a mode-specific required argument is missing (falsy),
`main` raises the corresponding `ValueError` before any collaborator is
invoked — the trace holds no transcription, diffusion, TTS or write event —
but only after the orchestrator is constructed and the ASR model loaded. -/
theorem C2_amended_error_before_collaborator_calls (C : Collaborators)
    (args : Args) :
    (args.mode = "inpaint" → pyFalsy args.text = true →
      main_dispatch C args =
        ([Event.constructPlayDiffusion, Event.loadASRModel args.asr_model,
          Event.raiseValueError inpaintTextMsg],
         RunResult.error inpaintTextMsg)) ∧
    (args.mode = "tts" → pyFalsy args.text = true →
      main_dispatch C args =
        ([Event.constructPlayDiffusion, Event.loadASRModel args.asr_model,
          Event.raiseValueError ttsTextMsg],
         RunResult.error ttsTextMsg)) ∧
    (args.mode = "tts" → pyFalsy args.text = false → pyFalsy args.voice = true →
      main_dispatch C args =
        ([Event.constructPlayDiffusion, Event.loadASRModel args.asr_model,
          Event.raiseValueError ttsVoiceMsg],
         RunResult.error ttsVoiceMsg)) := by
  refine ⟨fun hm ht => ?_, fun hm ht => ?_, fun hm ht hv => ?_⟩ <;>
    simp [main_dispatch, hm, ht, *]

/-- C2 amended witness: the inpaint-mode run without `--text` produces
exactly the construct, load and raise events and ends in the error. -/
theorem C2_amended_witness :
    main_dispatch Cex argsInpaintNoText =
      ([Event.constructPlayDiffusion,
        Event.loadASRModel default_asr_model_path,
        Event.raiseValueError inpaintTextMsg],
       RunResult.error inpaintTextMsg) :=
  (C2_amended_error_before_collaborator_calls Cex argsInpaintNoText).1 rfl rfl

/-- C4 counterexample: an asr-mode invocation omitting `--output` writes no
output file at all — no output path is resolved, so it does not equal
`output_inpaint_<basename(audio)>` as the claim asserts for asr mode. -/
theorem C4_counterexample :
    (main_dispatch Cex argsAsrNoOutput).2 = RunResult.ok none ∧
    writePathsOf (main_dispatch Cex argsAsrNoOutput).1 = [] ∧
    writePathsOf (main_dispatch Cex argsAsrNoOutput).1 ≠
      ["output_inpaint_" ++ basename "a/b.wav"] := by
  decide

/-- C4 amended: with `--output` omitted, the resolved output path is
`output_inpaint_<basename(audio)>` in inpaint mode and
`output_tts_<basename(voice)>` in tts mode; a supplied `--output` is used
unchanged; asr mode writes no output file. -/
theorem C4_amended_default_output_paths (C : Collaborators) (args : Args) :
    (args.mode = "inpaint" → pyFalsy args.text = false → args.output = none →
      (main_dispatch C args).2 =
        RunResult.ok (some ("output_inpaint_" ++ basename args.audio)) ∧
      writePathsOf (main_dispatch C args).1 =
        ["output_inpaint_" ++ basename args.audio]) ∧
    (args.mode = "tts" → pyFalsy args.text = false →
      pyFalsy args.voice = false → args.output = none →
      (main_dispatch C args).2 =
        RunResult.ok (some ("output_tts_" ++ basename (args.voice.getD ""))) ∧
      writePathsOf (main_dispatch C args).1 =
        ["output_tts_" ++ basename (args.voice.getD "")]) ∧
    (∀ p : String, args.mode = "inpaint" → pyFalsy args.text = false →
      args.output = some p →
      (main_dispatch C args).2 = RunResult.ok (some p)) ∧
    (∀ p : String, args.mode = "tts" → pyFalsy args.text = false →
      pyFalsy args.voice = false → args.output = some p →
      (main_dispatch C args).2 = RunResult.ok (some p)) ∧
    (args.mode = "asr" → writePathsOf (main_dispatch C args).1 = []) := by
  refine ⟨fun hm ht ho => ?_, fun hm ht hv ho => ?_,
    fun p hm ht ho => ?_, fun p hm ht hv ho => ?_, fun hm => ?_⟩ <;>
    simp [main_dispatch, run_complete_pipeline, inpaint_audio,
      text_to_speech, run_asr, writePathsOf, *]

/-- C4 amended witness: concrete runs hit the inpaint default path, the tts
default path, the explicit-output paths, and the asr no-write case. -/
theorem C4_amended_witness :
    (main_dispatch Cex argsInpaintEx).2 =
      RunResult.ok (some ("output_inpaint_" ++ basename "a/b.wav")) ∧
    (main_dispatch Cex argsTtsEx).2 =
      RunResult.ok (some ("output_tts_" ++ basename "v/c.wav")) ∧
    (main_dispatch Cex argsInpaintOutEx).2 = RunResult.ok (some "custom.wav") ∧
    (main_dispatch Cex argsTtsOutEx).2 = RunResult.ok (some "t.wav") ∧
    writePathsOf (main_dispatch Cex argsAsrNoOutput).1 = [] :=
  ⟨((C4_amended_default_output_paths Cex argsInpaintEx).1
      rfl (by decide) rfl).1,
   ((C4_amended_default_output_paths Cex argsTtsEx).2.1
      rfl (by decide) (by decide) rfl).1,
   (C4_amended_default_output_paths Cex argsInpaintOutEx).2.2.1
      "custom.wav" rfl (by decide) rfl,
   (C4_amended_default_output_paths Cex argsTtsOutEx).2.2.2.1
      "t.wav" rfl (by decide) (by decide) rfl,
   (C4_amended_default_output_paths Cex argsAsrNoOutput).2.2.2.2 rfl⟩

/-- C5: every valid inpaint CLI invocation delivers exactly one request to
the diffusion collaborator, and for each sampling-parameter flag that is
omitted — independently of what the other flags are set to — the
corresponding field of that request equals its documented default:
num_steps 30, init_temp 1.0, init_diversity 1.0, guidance 0.5,
rescale 0.7, topk 25. -/
theorem C5_omitted_flags_resolve_to_defaults (C : Collaborators)
    (raw : RawArgs) (a t : String)
    (hm : raw.mode = some "inpaint") (ha : raw.audio = some a)
    (ht : raw.text = some t) (hne : t.isEmpty = false) :
    (requestsOfRun (run_cli C raw)).length = 1 ∧
    ∀ req, req ∈ requestsOfRun (run_cli C raw) →
      (raw.num_steps = none → req.num_steps = 30) ∧
      (raw.init_temp = none → req.init_temp = 1) ∧
      (raw.init_diversity = none → req.init_diversity = 1) ∧
      (raw.guidance = none → req.guidance = 1/2) ∧
      (raw.rescale = none → req.rescale = 7/10) ∧
      (raw.topk = none → req.topk = 25) := by
  constructor
  · simp [run_cli, parse_args, Except.map, modeChoices, requestsOfRun,
      requestsOf, main_dispatch, pyFalsy, run_complete_pipeline,
      inpaint_audio, run_asr, hm, ha, ht, hne]
  · intro req hreq
    simp [run_cli, parse_args, Except.map, modeChoices, requestsOfRun,
      requestsOf, main_dispatch, pyFalsy, run_complete_pipeline,
      inpaint_audio, run_asr, hm, ha, ht, hne] at hreq
    subst hreq
    refine ⟨fun h => ?_, fun h => ?_, fun h => ?_, fun h => ?_,
      fun h => ?_, fun h => ?_⟩ <;> simp [h]

/-- C5 witness: a concrete inpaint invocation omitting only `--num_steps`
and `--guidance` (the other sampling flags set to non-default values) still
delivers those two parameters at their documented defaults. -/
theorem C5_omitted_flags_resolve_to_defaults_witness :
    (requestsOfRun (run_cli Cex rawMixedEx)).length = 1 ∧
    ∀ req, req ∈ requestsOfRun (run_cli Cex rawMixedEx) →
      (rawMixedEx.num_steps = none → req.num_steps = 30) ∧
      (rawMixedEx.init_temp = none → req.init_temp = 1) ∧
      (rawMixedEx.init_diversity = none → req.init_diversity = 1) ∧
      (rawMixedEx.guidance = none → req.guidance = 1/2) ∧
      (rawMixedEx.rescale = none → req.rescale = 7/10) ∧
      (rawMixedEx.topk = none → req.topk = 25) :=
  C5_omitted_flags_resolve_to_defaults Cex rawMixedEx "a/b.wav" "new words"
    rfl rfl rfl (by decide)

/-- C8: in tts mode the `--audio` argument, though required by the parser,
is never read — two invocations differing only in `--audio` produce the
same trace (same collaborator call, same file write) and the same result. -/
theorem C8_tts_mode_ignores_audio (C : Collaborators) (args : Args)
    (a1 a2 : String) (h : args.mode = "tts") :
    main_dispatch C (setAudio args a1) = main_dispatch C (setAudio args a2) := by
  simp [main_dispatch, setAudio, text_to_speech, h]

/-- C8 witness: two concrete tts runs differing only in the audio path
coincide. -/
theorem C8_tts_mode_ignores_audio_witness :
    main_dispatch Cex (setAudio argsTtsEx "p.wav") =
      main_dispatch Cex (setAudio argsTtsEx "q.wav") :=
  C8_tts_mode_ignores_audio Cex argsTtsEx "p.wav" "q.wav" rfl

/-- The empty string is empty — evaluation fact used when reducing the
truthiness checks. -/
theorem empty_string_isEmpty : "".isEmpty = true := by decide

/-- An empty-string argument is falsy. -/
theorem pyFalsy_some_empty : pyFalsy (some "") = true := by decide

/-- An omitted argument is falsy. -/
theorem pyFalsy_none : pyFalsy none = true := rfl

/-- C10: the required-argument checks test Python truthiness, not absence —
an empty-string `--text` (or `--voice`) behaves exactly like omitting the
flag, including raising the same missing-argument error in the relevant
modes. -/
theorem C10_empty_string_is_missing (C : Collaborators) (args : Args) :
    (main_dispatch C (setText args (some "")) =
      main_dispatch C (setText args none)) ∧
    (main_dispatch C (setVoice args (some "")) =
      main_dispatch C (setVoice args none)) ∧
    (args.mode = "inpaint" →
      (main_dispatch C (setText args (some ""))).2 =
        RunResult.error inpaintTextMsg) ∧
    (args.mode = "tts" →
      (main_dispatch C (setText args (some ""))).2 =
        RunResult.error ttsTextMsg) ∧
    (args.mode = "tts" → pyFalsy args.text = false →
      (main_dispatch C (setVoice args (some ""))).2 =
        RunResult.error ttsVoiceMsg) := by
  refine ⟨?_, ?_, fun hm => ?_, fun hm => ?_, fun hm ht => ?_⟩
  · by_cases h1 : args.mode = "asr"
    · simp [main_dispatch, setText, h1]
    · by_cases h2 : args.mode = "inpaint"
      · simp [main_dispatch, setText, h2, pyFalsy_some_empty, pyFalsy_none]
      · by_cases h3 : args.mode = "tts"
        · simp [main_dispatch, setText, h3, pyFalsy_some_empty, pyFalsy_none]
        · simp [main_dispatch, setText, h1, h2, h3]
  · by_cases h1 : args.mode = "asr"
    · simp [main_dispatch, setVoice, h1]
    · by_cases h2 : args.mode = "inpaint"
      · simp [main_dispatch, setVoice, h2]
      · by_cases h3 : args.mode = "tts"
        · simp [main_dispatch, setVoice, h3, pyFalsy_some_empty, pyFalsy_none]
        · simp [main_dispatch, setVoice, h1, h2, h3]
  · simp [main_dispatch, setText, hm, pyFalsy_some_empty]
  · simp [main_dispatch, setText, hm, pyFalsy_some_empty]
  · simp [main_dispatch, setVoice, hm, ht, pyFalsy_some_empty]

/-- C10 witness: a concrete empty-string `--text` in inpaint mode and a
concrete empty-string `--voice` in tts mode raise the respective
missing-argument errors. -/
theorem C10_empty_string_is_missing_witness :
    (main_dispatch Cex (setText argsInpaintEx (some ""))).2 =
      RunResult.error inpaintTextMsg ∧
    (main_dispatch Cex (setVoice argsTtsEx (some ""))).2 =
      RunResult.error ttsVoiceMsg :=
  ⟨(C10_empty_string_is_missing Cex argsInpaintEx).2.2.1 rfl,
   (C10_empty_string_is_missing Cex argsTtsEx).2.2.2.2 rfl (by decide)⟩
